import Mathlib

/-!
Shallow embedding of the Speed card game core (src/main.py).

A card is the Python tuple `(rank, suit)` with `rank : 1..13` and suit one of
"H", "D", "C", "S".  A hand position is a `CardLabel` widget: it carries the
card tuple, a face-up flag and a visibility flag (shown = occupied,
hidden = empty slot).  The game state collects the fields of `SpeedGame`
that the core operations read and write: the shared deck `self.deck`, the
two personal draw stocks `self.player_deck` / `self.ai_deck`, the unused
`self.remaining_deck`, the two hands, the two play piles
(`PlayPile.card`, `None` before the piles are seeded) and the
`self.game_over` flag.  Python `list.pop()` (pop from the end) is modelled
by `pyPop`.  Randomness (`shuffle`) is externalised: `start_game` takes the
already-shuffled deck as its argument.
-/

structure Card where
  rank : ℤ
  suit : String
deriving DecidableEq, Repr

/-- One `CardLabel` in a hand: its card tuple, its face-up flag, and its
visibility (`isVisible()`): a shown label is an occupied slot, a hidden one
is an empty slot. -/
structure Slot where
  card : Card
  face_up : Bool
  visible : Bool
deriving DecidableEq, Repr

/-- Outcome of `check_for_win_or_tie`: which screen (if any) the check
routes to.  `PlayerWins` is the `show_win_screen("Player")` branch,
`OpponentWins` is `show_win_screen("Opponent")`, `Tie` is
`show_tie_screen()`, `InProgress` means no branch fired. -/
inductive Outcome
  | PlayerWins
  | OpponentWins
  | Tie
  | InProgress
deriving DecidableEq, Repr

/-- The `SpeedGame` fields the core operations touch. -/
structure GameState where
  deck : List Card
  player_deck : List Card
  ai_deck : List Card
  remaining_deck : List Card
  player_hand : List Slot
  ai_hand : List Slot
  pile_left : Option Card
  pile_right : Option Card
  game_over : Bool
deriving DecidableEq, Repr

/-- Python `list.pop()`: removes and returns the last element, or fails on
an empty list. -/
def pyPop (l : List α) : Option (α × List α) :=
  match l.getLast? with
  | none => none
  | some x => some (x, l.dropLast)

/-- `SpeedGame.is_valid_move` (src/main.py:385):
`(card_rank - pile_rank) % 13 == 1 or (pile_rank - card_rank) % 13 == 1`.
Python `%` on ints agrees with Lean `Int.emod` for a positive modulus. -/
def is_valid_move (card_rank pile_rank : ℤ) : Bool :=
  ((card_rank - pile_rank) % 13 == 1) || ((pile_rank - card_rank) % 13 == 1)

/-- `PlayPile.valid_move` (src/main.py:173): an empty pile (`card is None`)
accepts any rank; otherwise `diff = abs(rank - self.card[0])` must be 1
or 12. -/
def valid_move (pile : Option Card) (rank : ℤ) : Bool :=
  match pile with
  | none => true
  | some c =>
    let diff := (rank - c.rank).natAbs
    diff == 1 || diff == 12

/-- The nested `is_valid_move` defined inside `try_reset_play_piles`
(src/main.py:413): `(value - pile_value) % 13 == 1 or
(pile_value - value) % 13 == 1` where `value = card[0]`. -/
def try_reset_is_valid_move (value pile_value : ℤ) : Bool :=
  ((value - pile_value) % 13 == 1) || ((pile_value - value) % 13 == 1)

/-- `build_deck` (src/main.py:241) before the shuffle: the list
comprehension `[(rank, suit) for suit in suits for rank in range(1, 14)]`
with `suits = ["H", "D", "C", "S"]`.  The shuffle is a permutation of this
list; the identity permutation is one possible shuffle outcome. -/
def unshuffledDeck : List Card :=
  ((["H", "D", "C", "S"] : List String).map
    (fun su => (List.range 13).map (fun r => Card.mk ((r : ℤ) + 1) su))).flatten

/-- Sentinel for the Python tuple `("Joker", "Black")` assigned by
`init_game_ui` when fewer than 2 cards remain (unreachable with a full
deck; in Python its first component is a string, not a rank). -/
def jokerBlack : Card := ⟨0, "JokerBlack"⟩

/-- Sentinel for `("Joker", "Red")`; see `jokerBlack`. -/
def jokerRed : Card := ⟨0, "JokerRed"⟩

/-- The hand-dealing loop of `init_game_ui`:
`for _ in range(n): if deck: card = deck.pop(); hand.append(CardLabel(card, face_up))`.
Returns the dealt slots in append order together with the remaining deck. -/
def dealLoop (face_up : Bool) : ℕ → List Card → List Slot × List Card
  | 0, d => ([], d)
  | n + 1, d =>
    match pyPop d with
    | none => ([], d)
    | some (c, d1) =>
      let (rest, d2) := dealLoop face_up n d1
      (⟨c, face_up, true⟩ :: rest, d2)

/-- `init_game_ui` (src/main.py:460), state part: deals 5 cards to the AI
hand by popping `self.ai_deck`, seeds both play piles by popping
`self.deck` twice when `len(self.deck) >= 2` (else the Joker sentinels),
then deals 5 cards to the player hand by popping `self.deck`.  The
`center_left_card` / `center_right_card` attributes mirror the pile cards
and are never read afterwards, so they are not separate fields here. -/
def init_game_ui (s : GameState) : GameState :=
  let aiDeal := dealLoop false 5 s.ai_deck
  let seed : Card × Card × List Card :=
    if 2 ≤ s.deck.length then
      match pyPop s.deck with
      | some (c1, d1) =>
        match pyPop d1 with
        | some (c2, d2) => (c1, c2, d2)
        | none => (jokerBlack, jokerRed, d1)
      | none => (jokerBlack, jokerRed, s.deck)
    else
      (jokerBlack, jokerRed, s.deck)
  let pDeal := dealLoop true 5 seed.2.2
  { s with
    ai_hand := aiDeal.1
    ai_deck := aiDeal.2
    pile_left := some seed.1
    pile_right := some seed.2.1
    player_hand := pDeal.1
    deck := pDeal.2 }

/-- `start_game` (src/main.py:339), state part, with the shuffled deck
passed in for `self.deck = self.build_deck()`.  It slices a copy:
`player_deck = full_deck[:15]`, `ai_deck = full_deck[15:30]`,
`remaining_deck = full_deck[32:]` — while `self.deck` keeps all 52
cards — resets `game_over`, and calls `init_game_ui`.  The
`center_cards = full_deck[30:32]` assignments to `center_left_card` /
`center_right_card` are overwritten inside `init_game_ui` (the deck has
52 ≥ 2 cards) and never read, so they leave no trace in the state. -/
def start_game (shuffled : List Card) : GameState :=
  init_game_ui
    { deck := shuffled
      player_deck := shuffled.take 15
      ai_deck := (shuffled.drop 15).take 15
      remaining_deck := shuffled.drop 32
      player_hand := []
      ai_hand := []
      pile_left := none
      pile_right := none
      game_over := false }

/-- The refill loop shared by `draw_player_card` / `draw_ai_card`:
`for card in hand: if not card.isVisible(): card.card = deck.pop();
card.face_up = fu; card.show(); break`. -/
def fillFirst (face_up : Bool) : List Slot → List Card → List Slot × List Card
  | [], d => ([], d)
  | slot :: rest, d =>
    if slot.visible then
      let (rest1, d1) := fillFirst face_up rest d
      (slot :: rest1, d1)
    else
      match pyPop d with
      | none => (slot :: rest, d)
      | some (c, d1) => (⟨c, face_up, true⟩ :: rest, d1)

/-- `draw_player_card` (src/main.py:562), state part: no-op when
`self.player_deck` is empty (only the draw-pile widget is hidden),
otherwise refills the first hidden slot face-up from the player's stock. -/
def draw_player_card (s : GameState) : GameState :=
  if s.player_deck.isEmpty then s
  else
    let r := fillFirst true s.player_hand s.player_deck
    { s with player_hand := r.1, player_deck := r.2 }

/-- `draw_ai_card` (src/main.py:592): like `draw_player_card` but from
`self.ai_deck`, refilled face-down. -/
def draw_ai_card (s : GameState) : GameState :=
  if s.ai_deck.isEmpty then s
  else
    let r := fillFirst false s.ai_hand s.ai_deck
    { s with ai_hand := r.1, ai_deck := r.2 }

/-- The scan-and-play loop of `ai_play` (src/main.py:637): for each hand
label in order, skip hidden ones (`CardLabel` objects are always truthy,
so `not card` never skips); for the first visible one whose rank passes
`pile.valid_move` for a pile in `[play_pile_left, play_pile_right]`, flip
it face-up, hide it, and report the played card and which pile (`true` =
left) received it.  Returns `none` when no slot yields a play. -/
def aiScan (l r : Option Card) : List Slot → Option (List Slot × Card × Bool)
  | [] => none
  | slot :: rest =>
    if slot.visible then
      if valid_move l slot.card.rank then
        some ({ slot with face_up := true, visible := false } :: rest, slot.card, true)
      else if valid_move r slot.card.rank then
        some ({ slot with face_up := true, visible := false } :: rest, slot.card, false)
      else
        (aiScan l r rest).map (fun p => (slot :: p.1, p.2))
    else
      (aiScan l r rest).map (fun p => (slot :: p.1, p.2))

/-- `ai_play` (src/main.py:621), synchronous part of one tick: returns the
state unchanged when `self.game_over`; otherwise plays the first card
found by the scan onto the chosen pile (the follow-up `draw_ai_card` is a
deferred `QTimer.singleShot`, not part of the tick's mutation); if no play
exists and every slot is hidden, draws a card.  The trailing
`check_for_win_or_tie` is likewise deferred. -/
def ai_play (s : GameState) : GameState :=
  if s.game_over then s
  else
    match aiScan s.pile_left s.pile_right s.ai_hand with
    | some (h, c, true) => { s with ai_hand := h, pile_left := some c }
    | some (h, c, false) => { s with ai_hand := h, pile_right := some c }
    | none =>
      if s.ai_hand.all (fun c => !c.visible) then draw_ai_card s else s

/-- `check_for_win_or_tie` (src/main.py:655) as the outcome it routes to.
`player_has_cards` is `any(card.isVisible() for card in player_hand) or
self.player_deck` (list truthiness = non-empty); symmetrically for the AI.
The stalemate scan walks `player_hand + ai_hand` and asks
`pile.valid_move(card.card[0])` for each pile. -/
def check_for_win_or_tie (s : GameState) : Outcome :=
  let player_has_cards := s.player_hand.any (fun c => c.visible) || !s.player_deck.isEmpty
  let ai_has_cards := s.ai_hand.any (fun c => c.visible) || !s.ai_deck.isEmpty
  if !player_has_cards && ai_has_cards then .PlayerWins
  else if !ai_has_cards && player_has_cards then .OpponentWins
  else
    let can_move := (s.player_hand ++ s.ai_hand).any (fun c =>
      c.visible && (valid_move s.pile_left c.card.rank || valid_move s.pile_right c.card.rank))
    if !can_move && s.deck.isEmpty then .Tie else .InProgress

/-- `PlayPile.dropEvent` (src/main.py:140) combined with the `CardLabel`
drag protocol (src/main.py:81): the dragged label (a face-up player card,
AI cards are face-down and refuse the drag) hides itself; the drop reads
the pile's current rank (`self.card[0]`, so the pile must hold a card),
asks `self.window().is_valid_move`, and on success stores the dropped
card as the pile card while the label stays hidden; on failure the event
is ignored and the label re-shows, leaving everything as it was.  The
handler then calls `check_for_win_or_tie`; its tie branch synchronously
enters `show_tie_screen`, which sets `game_over` (the win branches only
schedule a deferred screen change). -/
def dropEvent (s : GameState) (slotIdx : ℕ) (onLeft : Bool) : GameState :=
  match s.player_hand.get? slotIdx, (if onLeft then s.pile_left else s.pile_right) with
  | some slot, some pileCard =>
    let s1 :=
      if is_valid_move slot.card.rank pileCard.rank then
        let hand1 := s.player_hand.set slotIdx { slot with visible := false }
        if onLeft then { s with player_hand := hand1, pile_left := some slot.card }
        else { s with player_hand := hand1, pile_right := some slot.card }
      else s
    match check_for_win_or_tie s1 with
    | .Tie => { s1 with game_over := true }
    | _ => s1
  | _, _ => s

/-- The `any(card.isVisible() and (is_valid_move(card.card, left_value) or
is_valid_move(card.card, right_value)) for card in hand)` comprehensions
of `try_reset_play_piles`. -/
def hand_can_play (hand : List Slot) (left_value right_value : ℤ) : Bool :=
  hand.any (fun c =>
    c.visible && (try_reset_is_valid_move c.card.rank left_value ||
      try_reset_is_valid_move c.card.rank right_value))

/-- `try_reset_play_piles` (src/main.py:399): reads both pile ranks
(`pile.card[0]` raises in Python when a pile is empty, which cannot
happen after `init_game_ui`; modelled as a no-op on that dead branch),
computes `player_can_play` / `ai_can_play` over the visible hand cards,
and only when neither side can play and `len(self.deck) >= 2` pops two
cards from the shared deck as the new pile tops. -/
def try_reset_play_piles (s : GameState) : GameState :=
  match s.pile_left, s.pile_right with
  | some lc, some rc =>
    let player_can_play := hand_can_play s.player_hand lc.rank rc.rank
    let ai_can_play := hand_can_play s.ai_hand lc.rank rc.rank
    if !player_can_play && !ai_can_play && 2 ≤ s.deck.length then
      match pyPop s.deck with
      | some (lcard, d1) =>
        match pyPop d1 with
        | some (rcard, d2) =>
          { s with deck := d2, pile_left := some lcard, pile_right := some rcard }
        | none => s
      | none => s
    else s
  | _, _ => s

/-- All card instances a state holds: the shared deck, both personal draw
stocks, the occupied (visible) slots of both hands, and both pile tops.
(`remaining_deck` is assigned once and never read, and no discard is
tracked by the code, so neither appears.) -/
def totalCards (s : GameState) : List Card :=
  s.deck ++ s.player_deck ++ s.ai_deck ++
    (s.player_hand.filter (fun c => c.visible)).map (fun c => c.card) ++
    (s.ai_hand.filter (fun c => c.visible)).map (fun c => c.card) ++
    s.pile_left.toList ++ s.pile_right.toList

/-! ## Helper lemmas -/

/-- `valid_move` on an occupied pile only reads the pile card's rank. -/
theorem valid_move_some (r : ℤ) (su : String) (rank : ℤ) :
    valid_move (some ⟨r, su⟩) rank = ((rank - r).natAbs == 1 || (rank - r).natAbs == 12) :=
  rfl

/-- Over ranks 1..13, the absolute-difference formulation of
`PlayPile.valid_move` and the mod-13 formulation of
`SpeedGame.is_valid_move` coincide. -/
theorem absDiff_eq_mod_formulation :
    ∀ a b : Fin 13,
      ((((a : ℤ) + 1) - ((b : ℤ) + 1)).natAbs == 1 ||
        (((a : ℤ) + 1) - ((b : ℤ) + 1)).natAbs == 12) =
        is_valid_move ((a : ℤ) + 1) ((b : ℤ) + 1) := by
  decide

/-! ## Claims -/

/-- C7: for all ranks 1..13, `is_valid_move` agrees with the spec formula
`(rankA - rankB) mod 13 == 1 or (rankB - rankA) mod 13 == 1`; it is
symmetric, and `isAdjacent(1,13)`, `isAdjacent(1,2)` are true while
`isAdjacent(1,3)`, `isAdjacent(7,7)` are false. -/
theorem C7_isAdjacent_spec :
    (∀ a b : Fin 13,
      is_valid_move ((a : ℤ) + 1) ((b : ℤ) + 1) =
        (((((a : ℤ) + 1) - ((b : ℤ) + 1)) % 13 == 1) ||
          ((((b : ℤ) + 1) - ((a : ℤ) + 1)) % 13 == 1))) ∧
    (∀ a b : Fin 13,
      is_valid_move ((a : ℤ) + 1) ((b : ℤ) + 1) = is_valid_move ((b : ℤ) + 1) ((a : ℤ) + 1)) ∧
    is_valid_move 1 13 = true ∧
    is_valid_move 1 2 = true ∧
    is_valid_move 1 3 = false ∧
    is_valid_move 7 7 = false := by
  exact ⟨fun a b => rfl, by decide, rfl, rfl, rfl, rfl⟩

/-- C10: over ranks 1..13 and any pile suit, `PlayPile.valid_move`
(absolute difference 1 or 12), `SpeedGame.is_valid_move` and the nested
`is_valid_move` of `try_reset_play_piles` (both mod-13) return the same
boolean; and `PlayPile.valid_move` accepts every rank when the pile holds
no card. -/
theorem C10_legality_predicates_agree :
    (∀ a b : Fin 13, ∀ su : String,
      valid_move (some ⟨(b : ℤ) + 1, su⟩) ((a : ℤ) + 1) =
        is_valid_move ((a : ℤ) + 1) ((b : ℤ) + 1) ∧
      is_valid_move ((a : ℤ) + 1) ((b : ℤ) + 1) =
        try_reset_is_valid_move ((a : ℤ) + 1) ((b : ℤ) + 1)) ∧
    (∀ rank : ℤ, valid_move none rank = true) := by
  refine ⟨fun a b su => ⟨?_, rfl⟩, fun rank => rfl⟩
  rw [valid_move_some]
  exact absDiff_eq_mod_formulation a b

/-- C2 (code bug): immediately after the deal on the identity shuffle the
state holds 82 card instances, not 52, and the card (1, "H") is counted
twice — it sits in `self.deck` (never reduced below 45 cards by the deal)
and in `self.player_deck` (sliced from a copy) at the same time. -/
theorem C2_deal_counts_cards_twice :
    (totalCards (start_game unshuffledDeck)).length = 82 ∧
    (totalCards (start_game unshuffledDeck)).length ≠ 52 ∧
    (totalCards (start_game unshuffledDeck)).count (⟨1, "H"⟩ : Card) = 2 := by
  exact ⟨by decide, by decide, by decide⟩

/-- C6 (code bug): on the identity shuffle, the deal is not the claimed
disjoint split.  The center piles are seeded with the last two list
elements of the still-full shared deck (the first two cards popped), not
with the cards at positions 30 and 31; the player's hand is dealt from
the shared deck (spades 11..7), not from the player's 15; the player's
stock is the front slice `take 15`; and the shared deck still holds 45
cards afterwards, among them (1, "H"), which the player's stock holds as
well. -/
theorem C6_deal_is_not_disjoint_split :
    (start_game unshuffledDeck).pile_left = some ⟨13, "S"⟩ ∧
    (start_game unshuffledDeck).pile_right = some ⟨12, "S"⟩ ∧
    unshuffledDeck.get? 30 = some ⟨5, "C"⟩ ∧
    unshuffledDeck.get? 31 = some ⟨6, "C"⟩ ∧
    (start_game unshuffledDeck).player_hand.map (fun c => c.card) =
      [⟨11, "S"⟩, ⟨10, "S"⟩, ⟨9, "S"⟩, ⟨8, "S"⟩, ⟨7, "S"⟩] ∧
    (start_game unshuffledDeck).player_deck = unshuffledDeck.take 15 ∧
    (start_game unshuffledDeck).deck.length = 45 ∧
    (start_game unshuffledDeck).deck.count (⟨1, "H"⟩ : Card) = 1 ∧
    (start_game unshuffledDeck).player_deck.count (⟨1, "H"⟩ : Card) = 1 := by
  refine ⟨by decide, by decide, by decide, by decide, by decide, by decide, by decide,
    by decide, by decide⟩

/-- A state late in a match in which the player has played out every hand
slot and emptied the personal draw stock while the AI still holds a
visible card. -/
def playerEmptyState : GameState :=
  { deck := []
    player_deck := []
    ai_deck := []
    remaining_deck := []
    player_hand := [⟨⟨2, "H"⟩, true, false⟩, ⟨⟨5, "D"⟩, true, false⟩,
      ⟨⟨9, "C"⟩, true, false⟩, ⟨⟨11, "S"⟩, true, false⟩, ⟨⟨4, "H"⟩, true, false⟩]
    ai_hand := [⟨⟨7, "H"⟩, false, true⟩, ⟨⟨3, "D"⟩, false, false⟩,
      ⟨⟨8, "C"⟩, false, false⟩, ⟨⟨12, "S"⟩, false, false⟩, ⟨⟨6, "H"⟩, false, false⟩]
    pile_left := some ⟨1, "S"⟩
    pile_right := some ⟨10, "D"⟩
    game_over := false }

/-- C1 counterexample: with the player completely out of cards and the AI
still holding one, `check_for_win_or_tie` routes to the
`show_win_screen("Player")` branch — the emptied side itself wins — not
to an opponent win as the claim states. -/
theorem C1_counterexample :
    playerEmptyState.player_hand.any (fun c => c.visible) = false ∧
    playerEmptyState.player_deck = [] ∧
    playerEmptyState.ai_hand.any (fun c => c.visible) = true ∧
    check_for_win_or_tie playerEmptyState = Outcome.PlayerWins ∧
    check_for_win_or_tie playerEmptyState ≠ Outcome.OpponentWins := by
  exact ⟨by decide, by decide, by decide, by decide, by decide⟩

/-- C1 amended: the side that has no cards at all is itself declared the
winner while the other side still holds at least one card: player empty
and AI holding yields the player win, AI empty and player holding yields
the opponent win. -/
theorem C1_emptied_side_wins :
    (∀ s : GameState,
      s.player_hand.any (fun c => c.visible) = false →
      s.player_deck = [] →
      (s.ai_hand.any (fun c => c.visible) || !s.ai_deck.isEmpty) = true →
      check_for_win_or_tie s = Outcome.PlayerWins) ∧
    (∀ s : GameState,
      s.ai_hand.any (fun c => c.visible) = false →
      s.ai_deck = [] →
      (s.player_hand.any (fun c => c.visible) || !s.player_deck.isEmpty) = true →
      check_for_win_or_tie s = Outcome.OpponentWins) := by
  constructor
  · intro s h1 h2 h3
    simp [check_for_win_or_tie, h1, h2, h3]
  · intro s h1 h2 h3
    simp [check_for_win_or_tie, h1, h2, h3]

/-- C1 witness: the amended statement applied to `playerEmptyState`. -/
theorem C1_witness :
    playerEmptyState.player_hand.any (fun c => c.visible) = false ∧
    playerEmptyState.player_deck = [] ∧
    (playerEmptyState.ai_hand.any (fun c => c.visible) || !playerEmptyState.ai_deck.isEmpty) = true ∧
    check_for_win_or_tie playerEmptyState = Outcome.PlayerWins :=
  ⟨by decide, by decide, by decide,
    C1_emptied_side_wins.1 playerEmptyState (by decide) (by decide) (by decide)⟩

/-- A state in which both sides are simultaneously out of cards and the
shared deck is exhausted. -/
def bothEmptyState : GameState :=
  { deck := []
    player_deck := []
    ai_deck := []
    remaining_deck := []
    player_hand := [⟨⟨2, "H"⟩, true, false⟩, ⟨⟨5, "D"⟩, true, false⟩,
      ⟨⟨9, "C"⟩, true, false⟩, ⟨⟨11, "S"⟩, true, false⟩, ⟨⟨4, "H"⟩, true, false⟩]
    ai_hand := [⟨⟨7, "H"⟩, true, false⟩, ⟨⟨3, "D"⟩, true, false⟩,
      ⟨⟨8, "C"⟩, true, false⟩, ⟨⟨12, "S"⟩, true, false⟩, ⟨⟨6, "H"⟩, true, false⟩]
    pile_left := some ⟨1, "S"⟩
    pile_right := some ⟨10, "D"⟩
    game_over := false }

/-- C3 counterexample: when both sides are simultaneously empty and the
shared deck is empty, `check_for_win_or_tie` reaches the tie branch — the
player is not declared winner, contradicting the claim that the
player-first check order decides this case and that it is never a tie. -/
theorem C3_counterexample :
    bothEmptyState.player_hand.any (fun c => c.visible) = false ∧
    bothEmptyState.player_deck = [] ∧
    bothEmptyState.ai_hand.any (fun c => c.visible) = false ∧
    bothEmptyState.ai_deck = [] ∧
    check_for_win_or_tie bothEmptyState = Outcome.Tie ∧
    check_for_win_or_tie bothEmptyState ≠ Outcome.PlayerWins := by
  exact ⟨by decide, by decide, by decide, by decide, by decide, by decide⟩

/-- C3 amended: in the simultaneous-empty case neither win branch fires
(each requires the other side to still hold cards), so the evaluation
falls through to the stalemate check: it yields the tie exactly when the
shared deck is also empty, and stays in progress otherwise. -/
theorem C3_simultaneous_empty_is_tie_or_in_progress (s : GameState)
    (hp : s.player_hand.any (fun c => c.visible) = false)
    (hpd : s.player_deck = [])
    (ha : s.ai_hand.any (fun c => c.visible) = false)
    (had : s.ai_deck = []) :
    check_for_win_or_tie s = if s.deck.isEmpty then Outcome.Tie else Outcome.InProgress := by
  have hcan : (s.player_hand ++ s.ai_hand).any (fun c =>
      c.visible && (valid_move s.pile_left c.card.rank ||
        valid_move s.pile_right c.card.rank)) = false := by
    rw [List.any_eq_false]
    intro c hc
    have hcv : c.visible = false := by
      rcases List.mem_append.mp hc with h | h
      · have := List.any_eq_false.mp hp c h
        simpa using this
      · have := List.any_eq_false.mp ha c h
        simpa using this
    simp [hcv]
  simp only [check_for_win_or_tie, hp, hpd, had, hcan]
  cases h : s.deck.isEmpty <;>
    · simp [h]
      intro x hx
      simpa using List.any_eq_false.mp ha x hx

/-- C3 witness: the amended statement applied to `bothEmptyState`. -/
theorem C3_witness :
    check_for_win_or_tie bothEmptyState =
      if bothEmptyState.deck.isEmpty then Outcome.Tie else Outcome.InProgress :=
  C3_simultaneous_empty_is_tie_or_in_progress bothEmptyState
    (by decide) (by decide) (by decide) (by decide)

/-- A finished match (`game_over` set) in which the player's draw stock is
not yet exhausted and the first hand slot is empty. -/
def finishedMatchState : GameState :=
  { deck := []
    player_deck := [⟨5, "H"⟩]
    ai_deck := []
    remaining_deck := []
    player_hand := [⟨⟨2, "H"⟩, true, false⟩, ⟨⟨6, "D"⟩, true, true⟩,
      ⟨⟨9, "C"⟩, true, true⟩, ⟨⟨11, "S"⟩, true, true⟩, ⟨⟨4, "H"⟩, true, true⟩]
    ai_hand := [⟨⟨7, "H"⟩, false, true⟩, ⟨⟨3, "D"⟩, false, true⟩,
      ⟨⟨8, "C"⟩, false, true⟩, ⟨⟨12, "S"⟩, false, true⟩, ⟨⟨6, "H"⟩, false, true⟩]
    pile_left := some ⟨1, "S"⟩
    pile_right := some ⟨10, "D"⟩
    game_over := true }

/-- C5 counterexample: `draw_player_card` does not consult `game_over`:
invoked on a finished match it still pops the player's stock and refills
a slot, so the state changes — terminal states are not absorbing for
every operation. -/
theorem C5_counterexample :
    finishedMatchState.game_over = true ∧
    draw_player_card finishedMatchState ≠ finishedMatchState := by
  exact ⟨by decide, by decide⟩

/-- C5 amended: among the operations only the opponent tick checks the
terminal flag: `ai_play` leaves the whole state unchanged once
`game_over` is set, while the drop handler, the draws and the pile reset
perform no such check. -/
theorem C5_ai_play_absorbing (s : GameState) (h : s.game_over = true) :
    ai_play s = s := by
  simp [ai_play, h]

/-- C5 witness: `ai_play` applied to the finished match. -/
theorem C5_witness :
    finishedMatchState.game_over = true ∧ ai_play finishedMatchState = finishedMatchState :=
  ⟨rfl, C5_ai_play_absorbing finishedMatchState rfl⟩

/-- A mid-match state with two cards left in the shared deck in which the
player's visible 5 can legally be played on the left pile showing 4. -/
def resetWithMoveState : GameState :=
  { deck := [⟨2, "C"⟩, ⟨7, "D"⟩]
    player_deck := [⟨13, "H"⟩]
    ai_deck := [⟨1, "D"⟩]
    remaining_deck := []
    player_hand := [⟨⟨5, "H"⟩, true, true⟩, ⟨⟨11, "D"⟩, true, true⟩,
      ⟨⟨11, "C"⟩, true, true⟩, ⟨⟨7, "S"⟩, true, false⟩, ⟨⟨2, "H"⟩, true, true⟩]
    ai_hand := [⟨⟨7, "H"⟩, false, true⟩, ⟨⟨11, "S"⟩, false, true⟩,
      ⟨⟨8, "C"⟩, false, false⟩, ⟨⟨2, "S"⟩, false, true⟩, ⟨⟨6, "H"⟩, false, true⟩]
    pile_left := some ⟨4, "S"⟩
    pile_right := some ⟨9, "D"⟩
    game_over := false }

/-- The same configuration with no visible card on either side adjacent to
either pile (ranks 5/11/2 against piles 2 and 9 allow nothing: only the
hidden 7 of spades would fit on neither anyway). -/
def resetStuckState : GameState :=
  { deck := [⟨3, "C"⟩, ⟨8, "D"⟩]
    player_deck := [⟨13, "H"⟩]
    ai_deck := [⟨1, "D"⟩]
    remaining_deck := []
    player_hand := [⟨⟨5, "H"⟩, true, true⟩, ⟨⟨11, "D"⟩, true, true⟩,
      ⟨⟨11, "C"⟩, true, true⟩, ⟨⟨7, "S"⟩, true, false⟩, ⟨⟨5, "D"⟩, true, true⟩]
    ai_hand := [⟨⟨7, "H"⟩, false, true⟩, ⟨⟨11, "S"⟩, false, true⟩,
      ⟨⟨8, "C"⟩, false, false⟩, ⟨⟨5, "S"⟩, false, true⟩, ⟨⟨7, "C"⟩, false, true⟩]
    pile_left := some ⟨2, "S"⟩
    pile_right := some ⟨9, "D"⟩
    game_over := false }

/-- C4 counterexample: invoked with 2 cards remaining in the shared deck
but with a legal move available (the visible 5 on the pile showing 4),
`try_reset_play_piles` does not pop anything — it is not the
unconditional, caller-trusting reseed the claim describes. -/
theorem C4_counterexample :
    2 ≤ resetWithMoveState.deck.length ∧
    hand_can_play resetWithMoveState.player_hand 4 9 = true ∧
    try_reset_play_piles resetWithMoveState = resetWithMoveState := by
  exact ⟨by decide, by decide, by decide⟩

/-- C4 amended: `try_reset_play_piles` verifies the stuck precondition
itself: if any visible card in either hand is mod-13-adjacent to either
pile rank it is a no-op even with cards to spare, and only when neither
side can play and at least 2 cards remain does it pop two cards as the
new pile tops. -/
theorem C4_reset_verifies_stuck_precondition :
    (∀ s : GameState, ∀ lc rc : Card,
      s.pile_left = some lc → s.pile_right = some rc →
      (hand_can_play s.player_hand lc.rank rc.rank ||
        hand_can_play s.ai_hand lc.rank rc.rank) = true →
      try_reset_play_piles s = s) ∧
    (∀ s : GameState, ∀ lc rc lcard rcard : Card, ∀ d1 d2 : List Card,
      s.pile_left = some lc → s.pile_right = some rc →
      hand_can_play s.player_hand lc.rank rc.rank = false →
      hand_can_play s.ai_hand lc.rank rc.rank = false →
      2 ≤ s.deck.length →
      pyPop s.deck = some (lcard, d1) →
      pyPop d1 = some (rcard, d2) →
      try_reset_play_piles s =
        { s with deck := d2, pile_left := some lcard, pile_right := some rcard }) := by
  constructor
  · intro s lc rc hl hr h
    have hfalse : (!hand_can_play s.player_hand lc.rank rc.rank &&
        !hand_can_play s.ai_hand lc.rank rc.rank) = false := by
      cases hp : hand_can_play s.player_hand lc.rank rc.rank <;>
        cases ha : hand_can_play s.ai_hand lc.rank rc.rank <;>
          simp_all
    simp [try_reset_play_piles, hl, hr, hfalse]
  · intro s lc rc lcard rcard d1 d2 hl hr hp ha hlen hpop1 hpop2
    simp [try_reset_play_piles, hl, hr, hp, ha, hlen, hpop1, hpop2]

/-- C4 witness: the amended statement's reset direction applied to the
stuck configuration. -/
theorem C4_witness :
    try_reset_play_piles resetStuckState =
      { resetStuckState with
        deck := [], pile_left := some ⟨8, "D"⟩, pile_right := some ⟨3, "C"⟩ } :=
  C4_reset_verifies_stuck_precondition.2 resetStuckState ⟨2, "S"⟩ ⟨9, "D"⟩
    ⟨8, "D"⟩ ⟨3, "C"⟩ [⟨3, "C"⟩] [] rfl rfl (by decide) (by decide) (by decide) rfl rfl

/-- C8: dropping a hand card onto a pile whose current rank is not
adjacent to it (per `SpeedGame.is_valid_move`) is rejected, and the
rejection leaves the piles, both hands, and all three card stocks exactly
as they were. -/
theorem C8_rejected_play_changes_nothing (s : GameState) (i : ℕ) (onLeft : Bool)
    (slot : Slot) (pc : Card)
    (hs : s.player_hand.get? i = some slot)
    (hp : (if onLeft then s.pile_left else s.pile_right) = some pc)
    (hv : is_valid_move slot.card.rank pc.rank = false) :
    (dropEvent s i onLeft).pile_left = s.pile_left ∧
    (dropEvent s i onLeft).pile_right = s.pile_right ∧
    (dropEvent s i onLeft).player_hand = s.player_hand ∧
    (dropEvent s i onLeft).ai_hand = s.ai_hand ∧
    (dropEvent s i onLeft).player_deck = s.player_deck ∧
    (dropEvent s i onLeft).ai_deck = s.ai_deck ∧
    (dropEvent s i onLeft).deck = s.deck := by
  have hdef : dropEvent s i onLeft =
      match check_for_win_or_tie s with
      | .Tie => { s with game_over := true }
      | _ => s := by
    unfold dropEvent
    rw [hs, hp]
    simp [hv]
  rw [hdef]
  cases check_for_win_or_tie s <;> simp

/-- A state in which the only sensible drop is illegal: the visible 9 of
clubs dropped on the left pile showing 5, the spec's own example. -/
def illegalDropState : GameState :=
  { deck := [⟨2, "C"⟩, ⟨7, "D"⟩]
    player_deck := [⟨13, "H"⟩]
    ai_deck := [⟨1, "D"⟩]
    remaining_deck := []
    player_hand := [⟨⟨9, "C"⟩, true, true⟩, ⟨⟨11, "D"⟩, true, true⟩,
      ⟨⟨12, "C"⟩, true, true⟩, ⟨⟨7, "S"⟩, true, false⟩, ⟨⟨2, "H"⟩, true, true⟩]
    ai_hand := [⟨⟨7, "H"⟩, false, true⟩, ⟨⟨11, "S"⟩, false, true⟩,
      ⟨⟨8, "C"⟩, false, false⟩, ⟨⟨2, "S"⟩, false, true⟩, ⟨⟨6, "H"⟩, false, true⟩]
    pile_left := some ⟨5, "S"⟩
    pile_right := some ⟨12, "D"⟩
    game_over := false }

/-- C8 witness: rank 9 dropped on the pile showing rank 5 changes
nothing. -/
theorem C8_witness :
    (dropEvent illegalDropState 0 true).pile_left = illegalDropState.pile_left ∧
    (dropEvent illegalDropState 0 true).pile_right = illegalDropState.pile_right ∧
    (dropEvent illegalDropState 0 true).player_hand = illegalDropState.player_hand ∧
    (dropEvent illegalDropState 0 true).ai_hand = illegalDropState.ai_hand ∧
    (dropEvent illegalDropState 0 true).player_deck = illegalDropState.player_deck ∧
    (dropEvent illegalDropState 0 true).ai_deck = illegalDropState.ai_deck ∧
    (dropEvent illegalDropState 0 true).deck = illegalDropState.deck :=
  C8_rejected_play_changes_nothing illegalDropState 0 true
    ⟨⟨9, "C"⟩, true, true⟩ ⟨5, "S"⟩ rfl rfl (by decide)

/-- C9: the opponent scan is greedy, single-pass and deterministic: any
successful tick plays the card of the least-index visible slot that fits
a pile, prefers the left pile (the play goes right only when the left
refuses), rewrites exactly that one slot (face-up, hidden), and every
earlier slot was either empty or fit neither pile.  Determinism over
identical configurations is immediate since `aiScan` (and `ai_play` built
on it) is a function of the hand and piles alone. -/
theorem C9_opponent_scan_greedy (l r : Option Card) :
    ∀ (hand newHand : List Slot) (c : Card) (b : Bool),
      aiScan l r hand = some (newHand, c, b) →
      ∃ i, ∃ hi : i < hand.length,
        (hand.get ⟨i, hi⟩).visible = true ∧
        c = (hand.get ⟨i, hi⟩).card ∧
        newHand = hand.set i { hand.get ⟨i, hi⟩ with face_up := true, visible := false } ∧
        (b = true → valid_move l c.rank = true) ∧
        (b = false → valid_move l c.rank = false ∧ valid_move r c.rank = true) ∧
        ∀ j, ∀ hj : j < i,
          ((hand.get ⟨j, hj.trans hi⟩).visible &&
            (valid_move l (hand.get ⟨j, hj.trans hi⟩).card.rank ||
              valid_move r (hand.get ⟨j, hj.trans hi⟩).card.rank)) = false := by
  intro hand
  induction hand with
  | nil =>
    intro newHand c b h
    simp [aiScan] at h
  | cons slot rest ih =>
    intro newHand c b h
    rw [aiScan] at h
    by_cases hvis : slot.visible = true
    · rw [if_pos hvis] at h
      by_cases hl : valid_move l slot.card.rank = true
      · rw [if_pos hl] at h
        simp only [Option.some.injEq, Prod.mk.injEq] at h
        obtain ⟨h1, h2, h3⟩ := h
        refine ⟨0, Nat.succ_pos _, hvis, h2.symm, ?_, ?_, ?_, ?_⟩
        · simpa using h1.symm
        · intro _; rw [← h2]; exact hl
        · intro hb; rw [← h3] at hb; cases hb
        · intro j hj; omega
      · rw [if_neg hl] at h
        by_cases hr : valid_move r slot.card.rank = true
        · rw [if_pos hr] at h
          simp only [Option.some.injEq, Prod.mk.injEq] at h
          obtain ⟨h1, h2, h3⟩ := h
          refine ⟨0, Nat.succ_pos _, hvis, h2.symm, ?_, ?_, ?_, ?_⟩
          · simpa using h1.symm
          · intro hb; rw [← h3] at hb; cases hb
          · intro _; rw [← h2]
            exact ⟨Bool.not_eq_true _ ▸ (Bool.eq_false_iff.mpr hl), hr⟩
          · intro j hj; omega
        · rw [if_neg hr] at h
          rw [Option.map_eq_some'] at h
          obtain ⟨⟨h0, c0, b0⟩, hrec, heq⟩ := h
          simp only [Prod.mk.injEq] at heq
          obtain ⟨he1, he2, he3⟩ := heq
          subst he1 he2 he3
          obtain ⟨i, hi, hv0, hc0, hset, hbt, hbf, hmin⟩ := ih h0 c0 b0 hrec
          refine ⟨i + 1, Nat.succ_lt_succ hi, by simpa using hv0, by simpa using hc0,
            ?_, hbt, hbf, ?_⟩
          · simp [hset]
          · intro j hj
            cases j with
            | zero =>
              simp [Bool.eq_false_iff.mpr hl, Bool.eq_false_iff.mpr hr]
            | succ j0 =>
              have hj0 : j0 < i := by omega
              simpa using hmin j0 hj0
    · rw [if_neg hvis] at h
      rw [Option.map_eq_some'] at h
      obtain ⟨⟨h0, c0, b0⟩, hrec, heq⟩ := h
      simp only [Prod.mk.injEq] at heq
      obtain ⟨he1, he2, he3⟩ := heq
      subst he1 he2 he3
      obtain ⟨i, hi, hv0, hc0, hset, hbt, hbf, hmin⟩ := ih h0 c0 b0 hrec
      refine ⟨i + 1, Nat.succ_lt_succ hi, by simpa using hv0, by simpa using hc0,
        ?_, hbt, hbf, ?_⟩
      · simp [hset]
      · intro j hj
        cases j with
        | zero => simp [Bool.eq_false_iff.mpr hvis]
        | succ j0 =>
          have hj0 : j0 < i := by omega
          simpa using hmin j0 hj0

/-- A two-slot opponent hand whose first slot is empty and whose second
holds the playable 5 of spades. -/
def aiDemoHand : List Slot := [⟨⟨11, "D"⟩, true, false⟩, ⟨⟨5, "S"⟩, false, true⟩]

/-- `aiDemoHand` after the tick: the 5 of spades flipped face-up and
hidden. -/
def aiDemoPlayed : List Slot := [⟨⟨11, "D"⟩, true, false⟩, ⟨⟨5, "S"⟩, true, false⟩]

/-- C9 witness: the scan against piles showing 4 and 9 plays the 5 of
spades from slot 1 onto the left pile. -/
theorem C9_witness :
    ∃ i, ∃ hi : i < aiDemoHand.length,
      (aiDemoHand.get ⟨i, hi⟩).visible = true ∧
      (⟨5, "S"⟩ : Card) = (aiDemoHand.get ⟨i, hi⟩).card ∧
      aiDemoPlayed = aiDemoHand.set i
        { aiDemoHand.get ⟨i, hi⟩ with face_up := true, visible := false } ∧
      (true = true → valid_move (some ⟨4, "H"⟩) (⟨5, "S"⟩ : Card).rank = true) ∧
      (true = false → valid_move (some ⟨4, "H"⟩) (⟨5, "S"⟩ : Card).rank = false ∧
        valid_move (some ⟨9, "H"⟩) (⟨5, "S"⟩ : Card).rank = true) ∧
      ∀ j, ∀ hj : j < i,
        ((aiDemoHand.get ⟨j, hj.trans hi⟩).visible &&
          (valid_move (some ⟨4, "H"⟩) (aiDemoHand.get ⟨j, hj.trans hi⟩).card.rank ||
            valid_move (some ⟨9, "H"⟩) (aiDemoHand.get ⟨j, hj.trans hi⟩).card.rank)) = false :=
  C9_opponent_scan_greedy (some ⟨4, "H"⟩) (some ⟨9, "H"⟩)
    aiDemoHand aiDemoPlayed ⟨5, "S"⟩ true rfl
